import Mathlib

/-!
Verification of the did:web DID-document assembly core
(`create-did-docker.js`, first script: Docker mode; second script:
interactive mode).

JavaScript strings are modelled as lists of characters; JavaScript
objects read from JSON are modelled as structures with `Option` fields
(`none` = field absent).  In-place mutation of the public-key object is
modelled by explicit state passing: the builder returns the final state
of the key object alongside the document.
-/

namespace DidWeb

/-- A JavaScript string, modelled as its list of characters. -/
abbrev JsStr := List Char

/-- Whitespace predicate used by `String.prototype.trim` (modelled by
Lean's `Char.isWhitespace`; the scripts only ever trim ASCII input). -/
def jsWhitespace (c : Char) : Bool := c.isWhitespace

/-- `domain.trim()`: strip leading and trailing whitespace. -/
def jsTrim (s : JsStr) : JsStr :=
  ((s.dropWhile jsWhitespace).reverse.dropWhile jsWhitespace).reverse

/-- `s.split(sep)` for a one-character separator, with JavaScript
semantics: `"".split("/") = [""]`, `"a/".split("/") = ["a",""]`. -/
def splitOnChar (sep : Char) : JsStr → List JsStr
  | [] => [[]]
  | c :: cs =>
    if c = sep then [] :: splitOnChar sep cs
    else
      match splitOnChar sep cs with
      | [] => [[c]]
      | g :: gs => (c :: g) :: gs

/-- `parts.join(sep)` with JavaScript semantics. -/
def joinWith (sep : JsStr) : List JsStr → JsStr
  | [] => []
  | [g] => g
  | g :: gs => g ++ sep ++ joinWith sep gs

/-- `s.toLowerCase()` (ASCII model). -/
def jsToLower (s : JsStr) : JsStr := s.map Char.toLower

/-- The public key object parsed from `keys/public-key.json`:
a JWK with fields `kty`, `n`, `e` (from `exportJWK`) plus `alg` and
`use` (added by `1-generate-keys.js`), and the `x5u` field the scripts
assign.  `none` models an absent field. -/
structure JWK where
  kty : Option JsStr
  n : Option JsStr
  e : Option JsStr
  alg : Option JsStr
  use : Option JsStr
  x5u : Option JsStr
deriving DecidableEq

/-- One entry of `didDocument.verificationMethod`
(`create-did-docker.js` lines 59-66 and 209-216). -/
structure VerificationMethod where
  context : JsStr
  id : JsStr
  type : JsStr
  controller : JsStr
  publicKeyJwk : JWK
deriving DecidableEq

/-- One entry of `didDocument.service`
(`create-did-docker.js` lines 237-241). -/
structure Service where
  id : JsStr
  type : JsStr
  serviceEndpoint : JsStr
deriving DecidableEq

/-- The DID document object.  `authentication` and `service` are
`Option`s because the corresponding JavaScript properties are only
assigned when the user enables them. -/
structure DIDDocument where
  context : List JsStr
  id : JsStr
  verificationMethod : List VerificationMethod
  assertionMethod : List JsStr
  authentication : Option (List JsStr)
  service : Option (List Service)
deriving DecidableEq

/-- `const fragmentId = 'JWK2020-RSA'` (lines 53 and 203). -/
def fragmentId : JsStr := "JWK2020-RSA".toList

/-- Identifier computation of the interactive script (lines 180-187).
`rawPath = some p` models the user answering `y` to the path question
and entering `p` (possibly empty); `none` models any other answer, which
leaves `pathComponent = ''`.  With a path:
`didId = did:web:<domain.trim()>:<pathComponent.split('/').join(':')>`. -/
def didIdOf (domain : JsStr) (rawPath : Option JsStr) : JsStr :=
  match rawPath with
  | some p =>
      "did:web:".toList ++ jsTrim domain ++ [':'] ++
        joinWith [':'] (splitOnChar '/' p)
  | none => "did:web:".toList ++ jsTrim domain

/-- The `pathComponent` variable: initialised to `''`, overwritten by the
user's input only when they answered `y` (lines 177-181). -/
def pathComponentOf (rawPath : Option JsStr) : JsStr := rawPath.getD []

/-- x5u URL construction (lines 191-197): branches on the *truthiness*
of `pathComponent`, i.e. on it being non-empty. -/
def x5uOf (domain : JsStr) (rawPath : Option JsStr) : JsStr :=
  if pathComponentOf rawPath ≠ [] then
    "https://".toList ++ jsTrim domain ++ ['/'] ++ pathComponentOf rawPath ++
      "/x509CertificateChain.pem".toList
  else
    "https://".toList ++ jsTrim domain ++
      "/.well-known/x509CertificateChain.pem".toList

/-- The directory (relative to the server root) into which `did.json`
and `x509CertificateChain.pem` are written (lines 268-292): the path
component when it is non-empty, `.well-known` otherwise. -/
def publicationRootOf (rawPath : Option JsStr) : JsStr :=
  if pathComponentOf rawPath ≠ [] then pathComponentOf rawPath
  else ".well-known".toList

/-- Options of the document builder: `addAuthentication` models the
user answering `y` at line 222; `services` models the entries
`(serviceType, serviceEndpoint)` collected by the loop at lines 229-246
(empty iff the user answered anything but `y` at line 228, since the
loop body always pushes at least one entry). -/
structure BuildOptions where
  addAuthentication : Bool
  services : List (JsStr × JsStr)
deriving DecidableEq

/-- One service entry as pushed at lines 237-241:
`{id: didId#type.toLowerCase(), type, serviceEndpoint}`. -/
def serviceOf (didId : JsStr) (s : JsStr × JsStr) : Service :=
  { id := didId ++ '#' :: jsToLower s.1, type := s.1, serviceEndpoint := s.2 }

/-- Document assembly (lines 199-246).  The JavaScript statement
`publicKeyJWK.x5u = x5uURL` mutates the key object in place; the model
returns the final state of that object as the second component. -/
def buildDocument (didId : JsStr) (publicKeyJWK : JWK) (x5uURL : JsStr)
    (opts : BuildOptions) : DIDDocument × JWK :=
  let annotated : JWK := { publicKeyJWK with x5u := some x5uURL }
  let core : DIDDocument :=
    { context := ["https://www.w3.org/ns/did/v1".toList]
      id := didId
      verificationMethod :=
        [{ context := "https://w3c-ccg.github.io/lds-jws2020/contexts/v1/".toList
           id := didId ++ '#' :: fragmentId
           type := "JsonWebKey2020".toList
           controller := didId
           publicKeyJwk := annotated }]
      assertionMethod := [didId ++ '#' :: fragmentId]
      authentication := none
      service := none }
  let withAuth :=
    if opts.addAuthentication then
      { core with authentication := some [didId ++ '#' :: fragmentId] }
    else core
  let withService :=
    if opts.services = [] then withAuth
    else { withAuth with service := some (opts.services.map (serviceOf didId)) }
  (withService, annotated)

/-- Failure modes of the scripts (each is a `process.exit(1)` site). -/
inductive ScriptError where
  | publicKeyNotFound
  | domainRequired
deriving DecidableEq

/-- Inputs of one interactive run: the parsed public key (`none` models
a missing `keys/public-key.json`), the domain answer, the optional path
answer, and the authentication/service answers. -/
structure InteractiveInput where
  publicKey : Option JWK
  domain : JsStr
  rawPath : Option JsStr
  addAuthentication : Bool
  services : List (JsStr × JsStr)
deriving DecidableEq

/-- Observable result of a successful run: the document, the computed
identifier and x5u URL, the directory the files were written to, and
the final state of the public-key object. -/
structure ScriptOutput where
  document : DIDDocument
  didId : JsStr
  x5uURL : JsStr
  publicationRoot : JsStr
  publicKeyAfter : JWK
deriving DecidableEq

/-- The interactive script `createDIDDocument` (lines 143-315): key
existence check, domain check, identifier and x5u computation, document
assembly, publication. -/
def createDIDDocument (inp : InteractiveInput) : Except ScriptError ScriptOutput :=
  match inp.publicKey with
  | none => .error .publicKeyNotFound
  | some publicKeyJWK =>
    if jsTrim inp.domain = [] then .error .domainRequired
    else
      let didId := didIdOf inp.domain inp.rawPath
      let x5uURL := x5uOf inp.domain inp.rawPath
      let built := buildDocument didId publicKeyJWK x5uURL
        ⟨inp.addAuthentication, inp.services⟩
      .ok ⟨built.1, didId, x5uURL, publicationRootOf inp.rawPath, built.2⟩

/-- The Docker-mode script `createDIDDocument` (lines 15-111): domain
check first, then key check; no path, always `.well-known`, never
authentication or services. -/
def createDIDDocumentDocker (domain : JsStr) (publicKey : Option JWK) :
    Except ScriptError ScriptOutput :=
  if jsTrim domain = [] then .error .domainRequired
  else
    match publicKey with
    | none => .error .publicKeyNotFound
    | some publicKeyJWK =>
      let didId := "did:web:".toList ++ jsTrim domain
      let x5uURL := "https://".toList ++ jsTrim domain ++
        "/.well-known/x509CertificateChain.pem".toList
      let built := buildDocument didId publicKeyJWK x5uURL ⟨false, []⟩
      .ok ⟨built.1, didId, x5uURL, ".well-known".toList, built.2⟩

/-- Modelled from the spec: the did:web method's identifier-to-URL
mapping (spec §3 PublicationPath, §5 glossary), also stated in the code
comment at lines 264-266: `did:web:<domain>` is hosted under
`https://<domain>/.well-known` and `did:web:<domain>:<path>` under
`https://<domain>/<path>` (colons turned back into slashes).  The
repository contains no resolver; this definition exists only to state
the resolution-consistency invariant. -/
def didWebResolveDir (did : JsStr) : Option JsStr :=
  if List.take 8 did = "did:web:".toList then
    match splitOnChar ':' (List.drop 8 did) with
    | [] => none
    | [host] => some ("https://".toList ++ host ++ "/.well-known".toList)
    | host :: segs => some ("https://".toList ++ host ++ ['/'] ++ joinWith ['/'] segs)
  else none

/-- The URL directory at which the written files are served: the server
(`3-server.js`) statically mounts the publication directory at the path
of the same name, so the directory `publicationRootOf rawPath` is served
at `https://<domain.trim()>/<publicationRootOf rawPath>`. -/
def publicationDirURL (domain : JsStr) (rawPath : Option JsStr) : JsStr :=
  "https://".toList ++ jsTrim domain ++ ['/'] ++ publicationRootOf rawPath

/-- JSON string escaping (backslash-escape quotes and backslashes), for
the serialization model below. -/
def jsonEscape : JsStr → JsStr
  | [] => []
  | c :: cs =>
    if c = '"' ∨ c = '\\' then '\\' :: c :: jsonEscape cs
    else c :: jsonEscape cs

/-- A JSON string literal. -/
def jsonString (s : JsStr) : JsStr := '"' :: (jsonEscape s ++ ['"'])

/-- A key/value member of a JSON object. -/
def jsonField (k : JsStr) (v : JsStr) : JsStr := jsonString k ++ [':'] ++ v

/-- A JSON object with members in the given order. -/
def jsonObject (fields : List (JsStr × JsStr)) : JsStr :=
  '\x7b' :: (joinWith [','] (fields.map fun f => jsonField f.1 f.2) ++ ['\x7d'])

/-- A JSON array. -/
def jsonArray (items : List JsStr) : JsStr :=
  '[' :: (joinWith [','] items ++ [']'])

/-- An optional string member, omitted when the field is absent. -/
def jsonFieldOpt (k : JsStr) (v : Option JsStr) : List (JsStr × JsStr) :=
  match v with
  | some s => [(k, jsonString s)]
  | none => []

/-- Serialization of the key object, present fields only, in the order
they were written by the generator. -/
def renderJWK (k : JWK) : JsStr :=
  jsonObject (jsonFieldOpt "kty".toList k.kty ++ jsonFieldOpt "n".toList k.n ++
    jsonFieldOpt "e".toList k.e ++ jsonFieldOpt "alg".toList k.alg ++
    jsonFieldOpt "use".toList k.use ++ jsonFieldOpt "x5u".toList k.x5u)

/-- Serialization of one verification method, keys in insertion order. -/
def renderVerificationMethod (m : VerificationMethod) : JsStr :=
  jsonObject [("@context".toList, jsonString m.context),
    ("id".toList, jsonString m.id),
    ("type".toList, jsonString m.type),
    ("controller".toList, jsonString m.controller),
    ("publicKeyJwk".toList, renderJWK m.publicKeyJwk)]

/-- Serialization of one service entry, keys in insertion order. -/
def renderService (s : Service) : JsStr :=
  jsonObject [("id".toList, jsonString s.id),
    ("type".toList, jsonString s.type),
    ("serviceEndpoint".toList, jsonString s.serviceEndpoint)]

/-- Serialization model of `JSON.stringify(didDocument, null, 2)` up to
insignificant whitespace: members in insertion order, optional members
omitted when the corresponding property was never assigned. -/
def renderDocument (d : DIDDocument) : JsStr :=
  jsonObject
    ([("@context".toList, jsonArray (d.context.map jsonString)),
      ("id".toList, jsonString d.id),
      ("verificationMethod".toList,
        jsonArray (d.verificationMethod.map renderVerificationMethod)),
      ("assertionMethod".toList, jsonArray (d.assertionMethod.map jsonString))]
     ++ (match d.authentication with
         | some l => [("authentication".toList, jsonArray (l.map jsonString))]
         | none => [])
     ++ (match d.service with
         | some l => [("service".toList, jsonArray (l.map renderService))]
         | none => []))

/-- The builder run with the ambient wall-clock time and entropy the
process has access to, passed explicitly.  The document-assembly code
(lines 199-246) reads neither (no `Date`, no randomness there — the only
randomness in the repository is in the excluded key generator), so the
two parameters are unused. -/
def buildDocumentAt (_now _entropy : Nat) (didId : JsStr) (publicKeyJWK : JWK)
    (x5uURL : JsStr) (opts : BuildOptions) : DIDDocument × JWK :=
  buildDocument didId publicKeyJWK x5uURL opts

/-- The service-entry ids of a run's document, when the run succeeded
and the document has a `service` member. -/
def serviceIdsOf (r : Except ScriptError ScriptOutput) : Option (List JsStr) :=
  match r with
  | .ok out => out.document.service.map (List.map Service.id)
  | .error _ => none

/-- A well-formed RSA public key in the shape written by
`1-generate-keys.js`. -/
def jwk0 : JWK :=
  { kty := some "RSA".toList, n := some "modulus0".toList,
    e := some "AQAB".toList, alg := some "PS256".toList,
    use := some "sig".toList, x5u := none }

/-- A key object missing every required JWK field (`kty`, `n`, `e`):
malformed in the sense of spec §4.2 / §7. -/
def jwkMalformed : JWK :=
  { kty := none, n := none, e := none, alg := none, use := none, x5u := none }

/-- A concrete interactive run with two service entries whose types
collide after lower-casing. -/
def inpDup : InteractiveInput :=
  { publicKey := some jwk0, domain := "example.com".toList, rawPath := none,
    addAuthentication := false,
    services := [("Foo".toList, "https://svc.example/a".toList),
                 ("foo".toList, "https://svc.example/b".toList)] }

/-- A concrete interactive run with a malformed public key. -/
def inpMalformed : InteractiveInput :=
  { publicKey := some jwkMalformed, domain := "example.com".toList,
    rawPath := none, addAuthentication := false, services := [] }

/-! Helper lemmas about the string-splitting and joining model. -/

theorem splitOnChar_shape (sep : Char) (l : JsStr) :
    ∃ g gs, splitOnChar sep l = g :: gs := by
  cases l with
  | nil => exact ⟨[], [], rfl⟩
  | cons c cs =>
    unfold splitOnChar
    split
    · exact ⟨_, _, rfl⟩
    · split
      · exact ⟨_, _, rfl⟩
      · exact ⟨_, _, rfl⟩

theorem splitOnChar_cons_self (sep : Char) (cs : JsStr) :
    splitOnChar sep (sep :: cs) = [] :: splitOnChar sep cs := by
  conv_lhs => unfold splitOnChar
  rw [if_pos rfl]

theorem splitOnChar_cons_of_ne (sep c : Char) (cs : JsStr) (h : c ≠ sep)
    (g : JsStr) (gs : List JsStr) (hs : splitOnChar sep cs = g :: gs) :
    splitOnChar sep (c :: cs) = (c :: g) :: gs := by
  unfold splitOnChar
  rw [if_neg h, hs]

theorem joinWith_cons_of_ne_nil (sep g : JsStr) (r : List JsStr) (h : r ≠ []) :
    joinWith sep (g :: r) = g ++ sep ++ joinWith sep r := by
  cases r with
  | nil => exact absurd rfl h
  | cons a as => simp [joinWith]

theorem joinWith_splitOnChar (sep : Char) (l : JsStr) :
    joinWith [sep] (splitOnChar sep l) = l := by
  induction l with
  | nil => rfl
  | cons c cs ih =>
    obtain ⟨g, gs, hs⟩ := splitOnChar_shape sep cs
    by_cases h : c = sep
    · subst h
      rw [splitOnChar_cons_self,
        joinWith_cons_of_ne_nil _ _ _ (by rw [hs]; simp)]
      simpa using ih
    · rw [splitOnChar_cons_of_ne sep c cs h g gs hs]
      rw [hs] at ih
      cases gs with
      | nil =>
        simp only [joinWith] at ih ⊢
        rw [ih]
      | cons b bs =>
        rw [joinWith_cons_of_ne_nil _ _ _ (by simp)]
        rw [joinWith_cons_of_ne_nil _ _ _ (by simp)] at ih
        simp only [List.cons_append, List.append_assoc] at ih ⊢
        rw [ih]

theorem splitOnChar_of_not_mem (sep : Char) (l : JsStr) (h : sep ∉ l) :
    splitOnChar sep l = [l] := by
  induction l with
  | nil => rfl
  | cons c cs ih =>
    have hc : c ≠ sep := fun e => h (e ▸ List.mem_cons_self c cs)
    have hcs : sep ∉ cs := fun m => h (List.mem_cons_of_mem _ m)
    rw [splitOnChar_cons_of_ne sep c cs hc cs [] (ih hcs)]

theorem splitOnChar_append_cons (sep : Char) (h t : JsStr) (hh : sep ∉ h) :
    splitOnChar sep (h ++ sep :: t) = h :: splitOnChar sep t := by
  induction h with
  | nil => simpa using splitOnChar_cons_self sep t
  | cons c cs ih =>
    have hc : c ≠ sep := fun e => hh (e ▸ List.mem_cons_self c cs)
    have hcs : sep ∉ cs := fun m => hh (List.mem_cons_of_mem _ m)
    rw [List.cons_append,
      splitOnChar_cons_of_ne sep c (cs ++ sep :: t) hc cs
        (splitOnChar sep t) (ih hcs)]

theorem splitOnChar_joinWith (sep : Char) (gs : List JsStr)
    (h : ∀ g ∈ gs, sep ∉ g) (hne : gs ≠ []) :
    splitOnChar sep (joinWith [sep] gs) = gs := by
  induction gs with
  | nil => contradiction
  | cons g r ih =>
    cases r with
    | nil =>
      show splitOnChar sep (joinWith [sep] [g]) = [g]
      simp only [joinWith]
      exact splitOnChar_of_not_mem sep g (h g (by simp))
    | cons b bs =>
      rw [joinWith_cons_of_ne_nil _ _ _ (by simp), List.append_assoc,
        show [sep] ++ joinWith [sep] (b :: bs) = sep :: joinWith [sep] (b :: bs)
          from rfl,
        splitOnChar_append_cons sep g _ (h g (by simp)),
        ih (fun x hx => h x (by simp [hx])) (by simp)]

theorem not_mem_of_mem_splitOnChar (sep c : Char) (l : JsStr) (hc : c ∉ l) :
    ∀ g ∈ splitOnChar sep l, c ∉ g := by
  induction l with
  | nil =>
    intro g hg
    simp only [splitOnChar, List.mem_singleton] at hg
    subst hg
    simp
  | cons d ds ih =>
    have hcd : c ≠ d := fun e => hc (e ▸ List.mem_cons_self d ds)
    have hcds : c ∉ ds := fun m => hc (List.mem_cons_of_mem _ m)
    obtain ⟨g0, gs0, hs⟩ := splitOnChar_shape sep ds
    by_cases hd : d = sep
    · subst hd
      rw [splitOnChar_cons_self]
      intro g hg
      rcases List.mem_cons.mp hg with h1 | h2
      · subst h1; simp
      · exact ih hcds g h2
    · rw [splitOnChar_cons_of_ne sep d ds hd g0 gs0 hs]
      intro g hg
      rcases List.mem_cons.mp hg with h1 | h2
      · subst h1
        intro hmem
        rcases List.mem_cons.mp hmem with h3 | h4
        · exact hcd h3
        · exact ih hcds g0 (by rw [hs]; simp) h4
      · exact ih hcds g (by rw [hs]; exact List.mem_cons_of_mem _ h2)

/-! Evaluation lemmas for the resolver pieces. -/

theorem pathComponentOf_none : pathComponentOf none = [] := rfl

theorem pathComponentOf_some (p : JsStr) : pathComponentOf (some p) = p := rfl

theorem publicationRootOf_none : publicationRootOf none = ".well-known".toList := rfl

theorem publicationRootOf_some_of_ne (p : JsStr) (h : p ≠ []) :
    publicationRootOf (some p) = p := by
  simp [publicationRootOf, pathComponentOf, h]

theorem x5uOf_none (d : JsStr) :
    x5uOf d none = "https://".toList ++ jsTrim d ++
      "/.well-known/x509CertificateChain.pem".toList := rfl

theorem x5uOf_some_of_ne (d p : JsStr) (h : p ≠ []) :
    x5uOf d (some p) = "https://".toList ++ jsTrim d ++ ['/'] ++ p ++
      "/x509CertificateChain.pem".toList := by
  simp [x5uOf, pathComponentOf, h]

/-! Claim theorems. -/

/-- Claim C2: for every domain `d` that is non-empty after trimming,
with no path the computed DID identifier equals `"did:web:" ++ trim(d)`
and the publication root is `".well-known"`; with a path of the shape
`a/b` (the segments `a` and `b` slash-free, so that the path splits into
exactly those two segments) the DID identifier equals
`"did:web:" ++ trim(d) ++ ":a:b"` — slashes replaced by colons, the
segments copied verbatim — and the publication root is `a/b`. -/
theorem c2_resolver_outputs (d a b : JsStr) (hd : jsTrim d ≠ [])
    (ha : '/' ∉ a) (hb : '/' ∉ b) :
    didIdOf d none = "did:web:".toList ++ jsTrim d ∧
    publicationRootOf none = ".well-known".toList ∧
    didIdOf d (some (a ++ '/' :: b)) =
      "did:web:".toList ++ jsTrim d ++ ':' :: (a ++ ':' :: b) ∧
    publicationRootOf (some (a ++ '/' :: b)) = a ++ '/' :: b := by
  refine ⟨rfl, rfl, ?_, ?_⟩
  · unfold didIdOf
    dsimp only
    rw [splitOnChar_append_cons '/' a b ha, splitOnChar_of_not_mem '/' b hb,
      joinWith_cons_of_ne_nil _ _ _ (by simp)]
    simp [joinWith, List.append_assoc]
  · exact publicationRootOf_some_of_ne _ (by simp)

/-- Witness for C2 at `d = "example.com"`, `a = "a"`, `b = "b"`. -/
theorem c2_resolver_outputs_witness :
    (jsTrim "example.com".toList ≠ [] ∧ '/' ∉ ("a".toList : JsStr) ∧
      '/' ∉ ("b".toList : JsStr)) ∧
    (didIdOf "example.com".toList none =
        "did:web:".toList ++ jsTrim "example.com".toList ∧
      publicationRootOf none = ".well-known".toList ∧
      didIdOf "example.com".toList (some ("a".toList ++ '/' :: "b".toList)) =
        "did:web:".toList ++ jsTrim "example.com".toList ++
          ':' :: ("a".toList ++ ':' :: "b".toList) ∧
      publicationRootOf (some ("a".toList ++ '/' :: "b".toList)) =
        "a".toList ++ '/' :: "b".toList) :=
  ⟨⟨by decide, by decide, by decide⟩,
    c2_resolver_outputs "example.com".toList "a".toList "b".toList
      (by decide) (by decide) (by decide)⟩

/-- Claim C3: empty path segments are not filtered.  A path with a
trailing slash, such as `"a/"`, is still accepted (the run succeeds for
every domain non-empty after trimming), and the resulting DID identifier
embeds a colon for the empty trailing segment:
`"did:web:" ++ trim(d) ++ ":a:"`. -/
theorem c3_empty_segment_not_filtered (d : JsStr) (k : JWK) (auth : Bool)
    (svc : List (JsStr × JsStr)) (hd : jsTrim d ≠ []) :
    ∃ out, createDIDDocument ⟨some k, d, some "a/".toList, auth, svc⟩ = .ok out ∧
      out.didId = "did:web:".toList ++ jsTrim d ++ ":a:".toList := by
  unfold createDIDDocument
  dsimp only
  rw [if_neg hd]
  refine ⟨_, rfl, ?_⟩
  show didIdOf d (some "a/".toList) = _
  unfold didIdOf
  dsimp only
  rw [show splitOnChar '/' "a/".toList = [['a'], []] from rfl]
  simp [joinWith, List.append_assoc]

/-- Witness for C3 at `d = "example.com"` with the well-formed key. -/
theorem c3_empty_segment_not_filtered_witness :
    jsTrim "example.com".toList ≠ [] ∧
    ∃ out, createDIDDocument
        ⟨some jwk0, "example.com".toList, some "a/".toList, false, []⟩ =
        .ok out ∧
      out.didId = "did:web:".toList ++ jsTrim "example.com".toList ++
        ":a:".toList :=
  ⟨by decide,
    c3_empty_segment_not_filtered "example.com".toList jwk0 false [] (by decide)⟩

/-- Claim C6: regardless of options, the built document's
`assertionMethod` is the one-element list holding the full fragment
reference `<did>#JWK2020-RSA` of the sole verification method. -/
theorem c6_assertion_method (didId : JsStr) (k : JWK) (u : JsStr)
    (o : BuildOptions) :
    (buildDocument didId k u o).1.assertionMethod =
      [didId ++ "#JWK2020-RSA".toList] ∧
    (buildDocument didId k u o).1.verificationMethod.map VerificationMethod.id =
      [didId ++ "#JWK2020-RSA".toList] := by
  unfold buildDocument
  dsimp only
  constructor <;> (split <;> split <;> rfl)

/-- Claim C7: when the services option is empty, the built document has
no `service` member; when it is non-empty, the `service` list maps each
input `(type, endpoint)` pair, in the input order, to
`{id: <did>#<type lowercased>, type: the type verbatim,
serviceEndpoint: the endpoint verbatim}`. -/
theorem c7_service_mapping (didId : JsStr) (k : JWK) (u : JsStr)
    (o : BuildOptions) :
    (buildDocument didId k u o).1.service =
      (if o.services = [] then none
       else some (o.services.map fun s =>
        { id := didId ++ '#' :: jsToLower s.1, type := s.1,
          serviceEndpoint := s.2 })) := by
  unfold buildDocument serviceOf
  dsimp only
  split <;> split <;> rfl

/-- Claim C4 counterexample: the builder does not annotate a copy — the
statement `publicKeyJWK.x5u = x5uURL` (lines 50 and 200) mutates the
supplied key object in place.  Concretely: the supplied key has no
`x5u` field before the build, and after the build the caller's object
(the second component, the final state of the supplied object) differs
from the original precisely by having gained `x5u`. -/
theorem c4_counterexample :
    jwk0.x5u = none ∧
    (buildDocument "did:web:example.com".toList jwk0
        "https://example.com/.well-known/x509CertificateChain.pem".toList
        ⟨false, []⟩).2 ≠ jwk0 ∧
    (buildDocument "did:web:example.com".toList jwk0
        "https://example.com/.well-known/x509CertificateChain.pem".toList
        ⟨false, []⟩).2.x5u =
      some "https://example.com/.well-known/x509CertificateChain.pem".toList := by
  decide

/-- Claim C4 amended: the builder mutates the supplied key object in
place, setting its `x5u` field to the certificate-chain URL; the
mutation is idempotent, so a second build with the same inputs (the key
object now carrying `x5u`) produces the same document and leaves the
key object in the same state — the document output is unaffected, but
the caller's object is changed. -/
theorem c4_amended (didId : JsStr) (k : JWK) (u : JsStr) (o : BuildOptions) :
    (buildDocument didId k u o).2 = { k with x5u := some u } ∧
    buildDocument didId ((buildDocument didId k u o).2) u o =
      buildDocument didId k u o := by
  cases k
  exact ⟨rfl, rfl⟩

/-- Claim C5 counterexample: two service entries with distinct types
`"Foo"` and `"foo"` that collide after lower-casing do not make the
build fail — there is no duplicate check; the run succeeds and the
produced document carries two service entries with the same id
`did:web:example.com#foo`. -/
theorem c5_counterexample :
    ("Foo".toList : JsStr) ≠ "foo".toList ∧
    jsToLower "Foo".toList = jsToLower "foo".toList ∧
    (createDIDDocument inpDup).isOk = true ∧
    serviceIdsOf (createDIDDocument inpDup) =
      some ["did:web:example.com#foo".toList,
            "did:web:example.com#foo".toList] := by
  decide

/-- Claim C5 amended: when two distinct entries' types become equal
after lower-casing, the build does not fail; both entries are kept, in
order, and their fragment ids collide on `<did>#<type lowercased>`. -/
theorem c5_amended (didId : JsStr) (k : JWK) (u : JsStr) (auth : Bool)
    (t1 e1 t2 e2 : JsStr) (h : jsToLower t1 = jsToLower t2) :
    (buildDocument didId k u ⟨auth, [(t1, e1), (t2, e2)]⟩).1.service =
      some [⟨didId ++ '#' :: jsToLower t1, t1, e1⟩,
            ⟨didId ++ '#' :: jsToLower t2, t2, e2⟩] ∧
    didId ++ '#' :: jsToLower t1 = didId ++ '#' :: jsToLower t2 := by
  constructor
  · unfold buildDocument serviceOf
    dsimp only
    rw [if_neg (by simp)]
    rfl
  · rw [h]

/-- Witness for C5 amended at types `"Foo"` and `"foo"`. -/
theorem c5_amended_witness :
    jsToLower "Foo".toList = jsToLower "foo".toList ∧
    ((buildDocument "did:web:example.com".toList jwk0 "u0".toList
        ⟨false, [("Foo".toList, "e1".toList), ("foo".toList, "e2".toList)]⟩).1.service =
      some [⟨"did:web:example.com".toList ++ '#' :: jsToLower "Foo".toList,
              "Foo".toList, "e1".toList⟩,
            ⟨"did:web:example.com".toList ++ '#' :: jsToLower "foo".toList,
              "foo".toList, "e2".toList⟩] ∧
      "did:web:example.com".toList ++ '#' :: jsToLower "Foo".toList =
        "did:web:example.com".toList ++ '#' :: jsToLower "foo".toList) :=
  ⟨by decide,
    c5_amended "did:web:example.com".toList jwk0 "u0".toList false
      "Foo".toList "e1".toList "foo".toList "e2".toList (by decide)⟩

/-- Claim C8 counterexample: a public key missing every required JWK
field (`kty`, `n`, `e` all absent) is not rejected — with a valid
domain the run succeeds, so the build does not fail "exactly when …
the public key's required fields are malformed": no key-field
validation exists in the code. -/
theorem c8_counterexample :
    jwkMalformed.kty = none ∧ jwkMalformed.n = none ∧ jwkMalformed.e = none ∧
    inpMalformed.publicKey = some jwkMalformed ∧
    jsTrim inpMalformed.domain ≠ [] ∧
    (createDIDDocument inpMalformed).isOk = true := by
  decide

/-- Claim C8 amended: the run fails — producing no document — exactly
when the public key is missing or the domain is empty after trimming;
malformed key fields are not checked, the parsed key object is embedded
verbatim.  Each failure is surfaced immediately as the script's error
result. -/
theorem c8_amended (inp : InteractiveInput) :
    (createDIDDocument inp).isOk = false ↔
      (inp.publicKey = none ∨ jsTrim inp.domain = []) := by
  obtain ⟨pk, d, rp, au, sv⟩ := inp
  cases pk with
  | none => simp [createDIDDocument, Except.isOk, Except.toBool]
  | some k =>
    by_cases hd : jsTrim d = [] <;>
      simp [createDIDDocument, Except.isOk, Except.toBool, hd]

/-- Claim C9: document assembly is deterministic.  The builder is run
with the ambient wall-clock time and entropy passed explicitly
(`buildDocumentAt`); since the assembly code reads neither, two runs on
identical `(did, publicKey, x5u, options)` inputs — at arbitrary times
and with arbitrary entropy — produce equal documents and byte-identical
JSON serializations. -/
theorem c9_deterministic (n1 r1 n2 r2 : Nat) (didId : JsStr) (k : JWK)
    (u : JsStr) (o : BuildOptions) :
    buildDocumentAt n1 r1 didId k u o = buildDocumentAt n2 r2 didId k u o ∧
    renderDocument (buildDocumentAt n1 r1 didId k u o).1 =
      renderDocument (buildDocumentAt n2 r2 didId k u o).1 :=
  ⟨rfl, rfl⟩

/-- Claim C10: the Docker-mode builder, for every non-empty domain,
always produces the minimal document: the identifier is
`did:web:<trim(domain)>` with no path segments appended, the x5u URL
uses the `.well-known` root, the files are published under
`.well-known`, and the document carries neither an `authentication` nor
a `service` member. -/
theorem c10_docker_minimal (d : JsStr) (k : JWK) (hd : jsTrim d ≠ []) :
    ∃ out, createDIDDocumentDocker d (some k) = .ok out ∧
      out.didId = "did:web:".toList ++ jsTrim d ∧
      out.document.id = "did:web:".toList ++ jsTrim d ∧
      out.x5uURL = "https://".toList ++ jsTrim d ++
        "/.well-known/x509CertificateChain.pem".toList ∧
      out.publicationRoot = ".well-known".toList ∧
      out.document.authentication = none ∧
      out.document.service = none := by
  unfold createDIDDocumentDocker
  rw [if_neg hd]
  exact ⟨_, rfl, rfl, rfl, rfl, rfl, rfl, rfl⟩

/-- Witness for C10 at `d = "example.com"`. -/
theorem c10_docker_minimal_witness :
    jsTrim "example.com".toList ≠ [] ∧
    ∃ out, createDIDDocumentDocker "example.com".toList (some jwk0) = .ok out ∧
      out.didId = "did:web:".toList ++ jsTrim "example.com".toList ∧
      out.document.id = "did:web:".toList ++ jsTrim "example.com".toList ∧
      out.x5uURL = "https://".toList ++ jsTrim "example.com".toList ++
        "/.well-known/x509CertificateChain.pem".toList ∧
      out.publicationRoot = ".well-known".toList ∧
      out.document.authentication = none ∧
      out.document.service = none :=
  ⟨by decide, c10_docker_minimal "example.com".toList jwk0 (by decide)⟩

/-- Claim C1 counterexample: with domain `"example.com"` and a present
but empty path (the user answers `y` and enters nothing), the DID
identifier gains a trailing colon (`did:web:example.com:`) while the
files are published under `.well-known`; resolving that DID per the
did:web mapping reaches `https://example.com/` — not the `.well-known`
directory where the files were written, so the three outputs are not
mutually consistent for this optional path. -/
theorem c1_counterexample :
    jsTrim "example.com".toList ≠ [] ∧
    didIdOf "example.com".toList (some []) = "did:web:example.com:".toList ∧
    publicationRootOf (some []) = ".well-known".toList ∧
    didWebResolveDir (didIdOf "example.com".toList (some [])) =
      some "https://example.com/".toList ∧
    publicationDirURL "example.com".toList (some []) =
      "https://example.com/.well-known".toList ∧
    didWebResolveDir (didIdOf "example.com".toList (some [])) ≠
      some (publicationDirURL "example.com".toList (some [])) := by
  decide

/-- Claim C1 amended: for every domain non-empty after trimming and
every path that is absent or present and non-empty, the resolver's
three outputs stay mutually consistent — the x5u URL is exactly
`https://<trim(domain)>/<publication root>/x509CertificateChain.pem`,
and resolving the computed DID per the did:web mapping reaches exactly
the directory the files were written to (the trimmed domain and the
path are assumed colon-free, as the did:web identifier syntax requires;
a present-but-empty path breaks the consistency, see the
counterexample). -/
theorem c1_amended (d : JsStr) (rawPath : Option JsStr)
    (hd : jsTrim d ≠ []) (hdc : ':' ∉ jsTrim d)
    (hp : ∀ p, rawPath = some p → p ≠ [] ∧ ':' ∉ p) :
    x5uOf d rawPath = "https://".toList ++ jsTrim d ++ ['/'] ++
      publicationRootOf rawPath ++ "/x509CertificateChain.pem".toList ∧
    didWebResolveDir (didIdOf d rawPath) =
      some (publicationDirURL d rawPath) := by
  cases rawPath with
  | none =>
    constructor
    · rw [x5uOf_none, publicationRootOf_none,
        show ("/.well-known/x509CertificateChain.pem".toList : JsStr) =
          ['/'] ++ ".well-known".toList ++ "/x509CertificateChain.pem".toList
          from rfl]
      simp [List.append_assoc]
    · show didWebResolveDir ("did:web:".toList ++ jsTrim d) = _
      have hlen : ("did:web:".toList : JsStr).length = 8 := rfl
      unfold didWebResolveDir
      rw [if_pos (List.take_left' hlen), List.drop_left' hlen,
        splitOnChar_of_not_mem ':' (jsTrim d) hdc]
      dsimp only
      unfold publicationDirURL
      rw [publicationRootOf_none,
        show ("/.well-known".toList : JsStr) = '/' :: ".well-known".toList
          from rfl]
      simp [List.append_assoc]
  | some p =>
    obtain ⟨hpne, hpc⟩ := hp p rfl
    constructor
    · rw [x5uOf_some_of_ne d p hpne, publicationRootOf_some_of_ne p hpne]
    · show didWebResolveDir ("did:web:".toList ++ jsTrim d ++ [':'] ++
          joinWith [':'] (splitOnChar '/' p)) = _
      have hgs : ∀ g ∈ splitOnChar '/' p, ':' ∉ g :=
        not_mem_of_mem_splitOnChar '/' ':' p hpc
      obtain ⟨g, gs, hshape⟩ := splitOnChar_shape '/' p
      have hlen : ("did:web:".toList : JsStr).length = 8 := rfl
      rw [show "did:web:".toList ++ jsTrim d ++ [':'] ++
            joinWith [':'] (splitOnChar '/' p) =
          "did:web:".toList ++ (jsTrim d ++ ':' ::
            joinWith [':'] (splitOnChar '/' p)) by simp [List.append_assoc]]
      unfold didWebResolveDir
      rw [if_pos (List.take_left' hlen), List.drop_left' hlen,
        splitOnChar_append_cons ':' (jsTrim d) _ hdc,
        splitOnChar_joinWith ':' (splitOnChar '/' p) hgs (by rw [hshape]; simp),
        hshape]
      dsimp only
      rw [← hshape, joinWith_splitOnChar]
      unfold publicationDirURL
      rw [publicationRootOf_some_of_ne p hpne]

/-- Witness for C1 amended at `d = "example.com"`, path `"a/b"`. -/
theorem c1_amended_witness :
    (jsTrim "example.com".toList ≠ [] ∧ ':' ∉ jsTrim "example.com".toList ∧
      ("a/b".toList : JsStr) ≠ [] ∧ ':' ∉ ("a/b".toList : JsStr)) ∧
    (x5uOf "example.com".toList (some "a/b".toList) =
        "https://".toList ++ jsTrim "example.com".toList ++ ['/'] ++
          publicationRootOf (some "a/b".toList) ++
          "/x509CertificateChain.pem".toList ∧
      didWebResolveDir (didIdOf "example.com".toList (some "a/b".toList)) =
        some (publicationDirURL "example.com".toList (some "a/b".toList))) :=
  ⟨⟨by decide, by decide, by decide, by decide⟩,
    c1_amended "example.com".toList (some "a/b".toList) (by decide) (by decide)
      (by intro p hp; cases hp; exact ⟨by decide, by decide⟩)⟩

end DidWeb
